import Mathlib

/-!
Verification of the GraphLab Jacobi linear solver
(toolkits/linear_solvers/jacobi.cpp).

Shallow embedding of the Jacobi solver toolkit. The C++ scalar type
`real_type` (a floating-point `double`) is embedded as the exact rationals
`ℚ`; `std::numeric_limits<real_type>::max()` is embedded as the exact value
of the largest finite double, `(2^53 - 1) * 2^971`. Vertex and edge records,
the update functor `jacobi_update::operator()`, and the convergence
`accumulator` (per-vertex fold, `operator+=` combine, `finalize`) are
translated directly from the source. Graphs are total maps from vertex ids
to vertex records together with per-vertex out-edge lists. The matrix
loader and its validation live in `toolkits/shared/io.hpp`, which is not
part of this tree; the two definitions marked "Modelled from the spec"
stand in for it.
-/

namespace Jacobi

/-- Scalar type `real_type` from `shared/types.hpp`, embedded as exact
rationals. -/
abbrev real_type := ℚ

/-- Largest finite double, the exact value of
`std::numeric_limits<real_type>::max()`: `(2^53 - 1) * 2^971`. -/
def REAL_MAX : real_type := (2 ^ 53 - 1) * 2 ^ 971

/-- Record `vertex_data` (jacobi.cpp lines 49-59): right-hand side `y`,
diagonal `Aii`, current estimate `pred_x`, reference solution `real_x`,
previous estimate `prev_x`. -/
structure vertex_data where
  y : real_type
  Aii : real_type
  pred_x : real_type
  real_x : real_type
  prev_x : real_type
  deriving Repr, DecidableEq

/-- The default constructor `vertex_data()`:
`y(0), Aii(1), pred_x(0), real_x(0), prev_x(numeric_limits::max())`.
(The `if(debug) cout` in the constructor body prints only, so it does not
appear in the state.) -/
def vertex_data.default : vertex_data :=
  { y := 0, Aii := 1, pred_x := 0, real_x := 0, prev_x := REAL_MAX }

/-- Record `edge_data` (jacobi.cpp lines 61-64): the off-diagonal
coefficient `weight`. -/
structure edge_data where
  weight : real_type
  deriving Repr, DecidableEq

/-- Graph `graph<vertex_data, edge_data>`: vertex records indexed by vertex
id, and for each vertex its list of out-edges `(target, edge_data)`. -/
structure graph_type where
  vdata : Nat → vertex_data
  out_edges : Nat → List (Nat × edge_data)

/-- A scheduled work item: `context.schedule(v, *this)` always schedules the
`jacobi_update` functor. -/
inductive work_item where
  | jacobi : work_item
  deriving Repr, DecidableEq

/-- One step of the accumulation loop in `jacobi_update::operator()`
(lines 92-97): `x_i -= out_edge.weight * other.pred_x`, where `other` is the
target vertex of the out-edge. `x_i` is a reference into the vertex being
updated, so if an out-edge targets the vertex itself, the read of
`other.pred_x` sees the in-progress accumulated value. -/
def jacobi_step (g : graph_type) (v : Nat) (acc : real_type)
    (e : Nat × edge_data) : real_type :=
  acc - e.2.weight * (if e.1 = v then acc else (g.vdata e.1).pred_x)

/-- Update functor `jacobi_update::operator()` (jacobi.cpp lines 74-103),
run with the debug flag; returns the updated graph, the scheduled work, and
the lines written to the diagnostic stream — or `none` when
`assert(A_ii != 0)` fires. Note the source initializes the accumulator
`x_i` as a reference to `vdata.pred_x` (the previous estimate), and never
reads `vdata.y`. -/
def jacobi_update_run (debug : Bool) (g : graph_type) (v : Nat) :
    Option ((graph_type × List (Nat × work_item)) × List String) :=
  let vdata := g.vdata v
  let outedgeid := g.out_edges v
  -- store last round values: vdata.prev_x = vdata.pred_x
  let prev_x := vdata.pred_x
  -- real_type& x_i = vdata.pred_x  (alias; NOT reset to y)
  let x_i0 := vdata.pred_x
  let A_ii := vdata.Aii
  if A_ii = 0 then none  -- assert(A_ii != 0) aborts
  else
    let log1 : List String :=
      if debug then
        ["entering node " ++ toString v ++ " A_ii=" ++ toString vdata.Aii
          ++ " u=" ++ toString prev_x]
      else []
    let x_i1 := outedgeid.foldl (jacobi_step g v) x_i0
    let x_i := x_i1 / A_ii
    let log2 : List String :=
      if debug then [toString v ++ ") x_i: " ++ toString x_i] else []
    let vdata' := { vdata with prev_x := prev_x, pred_x := x_i }
    let g' : graph_type :=
      { g with vdata := fun u => if u = v then vdata' else g.vdata u }
    some ((g', [(v, work_item.jacobi)]), log1 ++ log2)

/-- The state effect of one `jacobi_update` invocation (the solver runs
with `debug = false` by default; the C9 theorem proves the flag never
changes the state component). -/
def jacobi_update (g : graph_type) (v : Nat) :
    Option (graph_type × List (Nat × work_item)) :=
  (jacobi_update_run false g v).map (fun p => p.1)

/-- The value the spec claims an update stores (claim wording, matching the
source's own comment at jacobi.cpp line 70):
`x_i = (b_i - Σ_j A_ij * x_j) / A_ii`, with each `x_j` the target vertex's
current estimate. This definition is deliberately spec-side, for comparison
with `jacobi_update`. -/
def jacobi_claimed_value (g : graph_type) (v : Nat) : real_type :=
  (((g.vdata v).y) -
    ((g.out_edges v).map
      (fun e => e.2.weight * (g.vdata e.1).pred_x)).sum) / (g.vdata v).Aii

/-- State of `class accumulator` (jacobi.cpp lines 110-137): the running
`real_norm` and `relative_norm`. -/
structure accumulator where
  real_norm : real_type
  relative_norm : real_type
  deriving Repr, DecidableEq

/-- The `accumulator()` constructor: both norms start at
`std::numeric_limits<real_type>::max()` (lines 115-117), not at zero. -/
def accumulator.new : accumulator :=
  { real_norm := REAL_MAX, relative_norm := REAL_MAX }

/-- Per-vertex step `accumulator::operator()` (lines 118-122): fold one
vertex into the running norms. -/
def accumulator.fold1 (acc : accumulator) (vdata : vertex_data) : accumulator :=
  { real_norm := acc.real_norm + (vdata.pred_x - vdata.real_x) ^ 2,
    relative_norm := acc.relative_norm + (vdata.pred_x - vdata.prev_x) ^ 2 }

/-- Combine step `accumulator::operator+=` (lines 123-126): pairwise sum of
two accumulator states. -/
def accumulator.combine (a b : accumulator) : accumulator :=
  { real_norm := a.real_norm + b.real_norm,
    relative_norm := a.relative_norm + b.relative_norm }

/-- Fold a whole list of vertices into one freshly constructed accumulator
(one accumulation pass run by a single accumulator instance). -/
def accumulator.foldAll (vs : List vertex_data) : accumulator :=
  vs.foldl accumulator.fold1 accumulator.new

/-- Combine a collection of per-group accumulator states left-to-right
(the first group's state, then `+=` each further one). -/
def accumulator.combineAll (a : accumulator) (rest : List accumulator) :
    accumulator :=
  rest.foldl accumulator.combine a

/-- The globally observable state touched by `accumulator::finalize`: the
published `REAL_NORM` and `RELATIVE_NORM` globals, the configured
`THRESHOLD`, and whether the engine has been signalled to terminate. -/
structure global_state where
  REAL_NORM : real_type
  RELATIVE_NORM : real_type
  THRESHOLD : real_type
  terminated : Bool
  deriving Repr, DecidableEq

/-- Finalize step `accumulator::finalize` (lines 127-136): publish both
norms with `set_global`, read the `THRESHOLD` global, and call
`context.terminate()` exactly when `real_norm < threshold`. Returns the new
global state and whether `terminate()` was called in this pass. -/
def accumulator.finalize (acc : accumulator) (ctx : global_state) :
    global_state × Bool :=
  let ctx1 := { ctx with REAL_NORM := acc.real_norm,
                         RELATIVE_NORM := acc.relative_norm }
  let threshold := ctx1.THRESHOLD
  if acc.real_norm < threshold then
    ({ ctx1 with terminated := true }, true)
  else (ctx1, false)

/-- One nonzero entry of the input matrix: row index, column index,
value. -/
structure matrix_entry where
  row : Nat
  col : Nat
  val : real_type
  deriving Repr, DecidableEq

/-- Modelled from the spec: graph loading (`load_graph` in
`toolkits/shared/io.hpp`, which is not part of this tree) populates the
graph from the parsed matrix entries — "diagonal entries populate vertex
`diagonal`, off-diagonal entries populate edges" (spec section 6). A
diagonal entry for row `i` calls `add_self_edge`, i.e. sets `Aii`; an
off-diagonal entry `(i, j)` becomes an out-edge of `i` with the entry's
value as weight; every other vertex field keeps its default-constructed
value. -/
def load_graph (entries : List matrix_entry) : graph_type :=
  { vdata := fun i =>
      entries.foldl
        (fun vd e =>
          if e.row = i ∧ e.col = i then { vd with Aii := e.val } else vd)
        vertex_data.default,
    out_edges := fun i =>
      entries.filterMap
        (fun e =>
          if e.row = i ∧ e.col ≠ i then some (e.col, ⟨e.val⟩) else none) }

/-- Modelled from the spec: load-time validation of the matrix
(`toolkits/shared/io.hpp`, which is not part of this tree) — "loading a
matrix with any A_ii = 0 must fail validation before any update runs",
reported "with the offending vertex index" (spec sections 7 and 8). Returns
the offending vertex index of the first zero diagonal entry, or `ok` when
none exists. -/
def load_validate (entries : List matrix_entry) : Except Nat Unit :=
  match entries.find? (fun e => e.row = e.col && e.val = 0) with
  | some e => Except.error e.row
  | none => Except.ok ()

/-- Concrete system for C1: a single vertex 0 with `y = 1`, `A_00 = 1`,
current estimate 0 and no off-diagonal edges. -/
def gC1 : graph_type :=
  { vdata := fun _ => { y := 1, Aii := 1, pred_x := 0, real_x := 0, prev_x := 0 },
    out_edges := fun _ => [] }

/-- Concrete diagonal-only system for C5: a single vertex 0 with `y = 6`,
`A_00 = 2`, initial estimate 0 and no off-diagonal edges. -/
def gC5 : graph_type :=
  { vdata := fun _ => { y := 6, Aii := 2, pred_x := 0, real_x := 0, prev_x := 0 },
    out_edges := fun _ => [] }

/-- Concrete graph whose vertices are all default-constructed. -/
def g_default : graph_type :=
  { vdata := fun _ => vertex_data.default, out_edges := fun _ => [] }

/-- Concrete vertex whose estimate, reference and previous estimate all
agree (all error contributions are zero). -/
def vzero : vertex_data :=
  { y := 0, Aii := 1, pred_x := 0, real_x := 0, prev_x := 0 }

/-- Concrete entry list with a zero diagonal entry at vertex 0. -/
def esBad : List matrix_entry := [⟨0, 0, 0⟩]

/-- Concrete entry list whose single diagonal entry is nonzero. -/
def esGood : List matrix_entry := [⟨0, 0, 5⟩]

/-- Running one accumulation pass starting from state `a` adds the sum of
squared absolute errors of the folded vertices to `a.real_norm`. -/
theorem foldl_fold1_real (vs : List vertex_data) (a : accumulator) :
    (vs.foldl accumulator.fold1 a).real_norm =
      a.real_norm + (vs.map (fun v => (v.pred_x - v.real_x) ^ 2)).sum := by
  induction vs generalizing a with
  | nil => simp
  | cons v t ih => simp [List.foldl_cons, ih, accumulator.fold1]; ring

/-- Running one accumulation pass starting from state `a` adds the sum of
squared relative errors of the folded vertices to `a.relative_norm`. -/
theorem foldl_fold1_relative (vs : List vertex_data) (a : accumulator) :
    (vs.foldl accumulator.fold1 a).relative_norm =
      a.relative_norm + (vs.map (fun v => (v.pred_x - v.prev_x) ^ 2)).sum := by
  induction vs generalizing a with
  | nil => simp
  | cons v t ih => simp [List.foldl_cons, ih, accumulator.fold1]; ring

/-- Combining a list of accumulator states into `a` sums their absolute
norms. -/
theorem foldl_combine_real (accs : List accumulator) (a : accumulator) :
    (accs.foldl accumulator.combine a).real_norm =
      a.real_norm + (accs.map accumulator.real_norm).sum := by
  induction accs generalizing a with
  | nil => simp
  | cons b t ih => simp [List.foldl_cons, ih, accumulator.combine]; ring

/-- Combining a list of accumulator states into `a` sums their relative
norms. -/
theorem foldl_combine_relative (accs : List accumulator) (a : accumulator) :
    (accs.foldl accumulator.combine a).relative_norm =
      a.relative_norm + (accs.map accumulator.relative_norm).sum := by
  induction accs generalizing a with
  | nil => simp
  | cons b t ih => simp [List.foldl_cons, ih, accumulator.combine]; ring

/-- Summing a mapped flattened list of lists equals summing the per-group
sums. -/
theorem sum_map_flatten (f : vertex_data → real_type) (gs : List (List vertex_data)) :
    ((gs.flatten).map f).sum = (gs.map (fun h => (h.map f).sum)).sum := by
  induction gs with
  | nil => simp
  | cons h t ih => simp [List.flatten_cons, Function.comp_def, ih]

/-- Summing `c + f x` over a list contributes one copy of `c` per
element. -/
theorem sum_map_const_add {α : Type} (c : real_type) (f : α → real_type) (l : List α) :
    (l.map (fun x => c + f x)).sum = l.length * c + (l.map f).sum := by
  induction l with
  | nil => simp
  | cons x xs ih => simp [ih]; ring

/-- On any entry list in which every diagonal entry is nonzero, every
loaded vertex keeps a nonzero diagonal (the default is 1, and only diagonal
entries overwrite it). -/
theorem load_graph_Aii (es : List matrix_entry) (v : Nat)
    (h : ∀ e ∈ es, e.row = e.col → e.val ≠ 0) :
    ((load_graph es).vdata v).Aii ≠ 0 := by
  show (es.foldl
      (fun vd e => if e.row = v ∧ e.col = v then { vd with Aii := e.val } else vd)
      vertex_data.default).Aii ≠ 0
  have H : ∀ (es' : List matrix_entry) (vd : vertex_data),
      (∀ e ∈ es', e.row = e.col → e.val ≠ 0) → vd.Aii ≠ 0 →
      (es'.foldl
        (fun vd e => if e.row = v ∧ e.col = v then { vd with Aii := e.val } else vd)
        vd).Aii ≠ 0 := by
    intro es'
    induction es' with
    | nil => intro vd _ h0; simpa using h0
    | cons e t ih =>
      intro vd hall h0
      rw [List.foldl_cons]
      refine ih _ (fun e' he' => hall e' (List.mem_cons_of_mem _ he')) ?_
      by_cases hc : e.row = v ∧ e.col = v
      · simpa [hc] using hall e (List.mem_cons_self _ _) (hc.1.trans hc.2.symm)
      · simpa [hc] using h0
  exact H es vertex_data.default h (by norm_num [vertex_data.default])

/-- C1: the claim states that an update on vertex `i` stores
`(y_i − Σ A_ij·x_j) / A_ii`. The source instead seeds the accumulator with
the vertex's previous estimate and never reads `y` (contradicting its own
comment at jacobi.cpp line 70): on a vertex with `y = 1`, `A_ii = 1`,
estimate 0 and no out-edges, the update stores 0 while the claimed value is
1. -/
theorem C1_update_ignores_y :
    (jacobi_update gC1 0).map (fun p => (p.1.vdata 0).pred_x) = some 0 ∧
    jacobi_claimed_value gC1 0 = 1 ∧
    (jacobi_update gC1 0).map (fun p => (p.1.vdata 0).pred_x) ≠
      some (jacobi_claimed_value gC1 0) := by
  refine ⟨?_, ?_, ?_⟩ <;>
    simp [jacobi_update, jacobi_update_run, jacobi_claimed_value, gC1]

/-- C2: the claim states that an accumulation pass produces exactly the
sums of squared errors. The `accumulator()` constructor starts both norms
at `numeric_limits::max()` rather than 0, so folding one vertex whose
estimate, reference and previous estimate coincide (all claimed sums are 0)
yields `REAL_MAX`, not 0. -/
theorem C2_norms_start_at_max :
    (accumulator.foldAll [vzero]).real_norm = REAL_MAX ∧
    (accumulator.foldAll [vzero]).relative_norm = REAL_MAX ∧
    ([vzero].map (fun v => (v.pred_x - v.real_x) ^ 2)).sum = 0 ∧
    ([vzero].map (fun v => (v.pred_x - v.prev_x) ^ 2)).sum = 0 ∧
    REAL_MAX ≠ 0 := by
  refine ⟨?_, ?_, ?_, ?_, ?_⟩
  · simp [accumulator.foldAll, accumulator.fold1, accumulator.new, vzero]
  · simp [accumulator.foldAll, accumulator.fold1, accumulator.new, vzero]
  · simp [vzero]
  · simp [vzero]
  · norm_num [REAL_MAX]

/-- C3: `finalize` publishes the combined `real_norm` and `relative_norm`
to the global state, and signals engine termination if and only if the
absolute norm is strictly below the configured threshold. -/
theorem C3_finalize_publishes_and_terminates (acc : accumulator) (ctx : global_state) :
    (accumulator.finalize acc ctx).1.REAL_NORM = acc.real_norm ∧
    (accumulator.finalize acc ctx).1.RELATIVE_NORM = acc.relative_norm ∧
    ((accumulator.finalize acc ctx).2 = true ↔ acc.real_norm < ctx.THRESHOLD) := by
  by_cases h : acc.real_norm < ctx.THRESHOLD <;>
    simp [accumulator.finalize, h]

/-- C4: on the spec-modelled loader, a matrix containing a zero diagonal
entry fails load-time validation with the offending vertex index reported,
and any matrix that passes validation gives every vertex a nonzero
diagonal, so `assert(A_ii != 0)` in the update functor can never fire
(every update invocation completes). -/
theorem C4_zero_diagonal_load_validation (es : List matrix_entry) :
    ((∃ e ∈ es, e.row = e.col ∧ e.val = 0) →
      ∃ j, load_validate es = Except.error j ∧
        ∃ e ∈ es, e.row = j ∧ e.col = j ∧ e.val = 0) ∧
    (load_validate es = Except.ok () →
      ∀ v, (jacobi_update (load_graph es) v).isSome = true) := by
  constructor
  · rintro ⟨e, he, hrc, hv⟩
    unfold load_validate
    cases hf : es.find? (fun e => e.row = e.col && e.val = 0) with
    | none =>
      exfalso
      have := List.find?_eq_none.1 hf e he
      simp [hrc, hv] at this
    | some e' =>
      have hp := List.find?_some hf
      have hm := List.mem_of_find?_eq_some hf
      simp only [Bool.and_eq_true, decide_eq_true_eq] at hp
      exact ⟨e'.row, rfl, e', hm, rfl, hp.1.symm, hp.2⟩
  · intro hok v
    have hno : ∀ e ∈ es, e.row = e.col → e.val ≠ 0 := by
      intro e he hrc hv
      unfold load_validate at hok
      cases hf : es.find? (fun e => e.row = e.col && e.val = 0) with
      | none =>
        have := List.find?_eq_none.1 hf e he
        simp [hrc, hv] at this
      | some e' => simp [hf] at hok
    have hA := load_graph_Aii es v hno
    simp [jacobi_update, jacobi_update_run, hA]

/-- Witness for C4: the entry list with a zero diagonal at vertex 0 is
rejected with index 0 reported, and the validated nonzero-diagonal entry
list loads to a graph on which the update completes. -/
theorem C4_zero_diagonal_load_validation_witness :
    (∃ j, load_validate esBad = Except.error j ∧
      ∃ e ∈ esBad, e.row = j ∧ e.col = j ∧ e.val = 0) ∧
    (jacobi_update (load_graph esGood) 0).isSome = true := by
  constructor
  · exact (C4_zero_diagonal_load_validation esBad).1
      ⟨⟨0, 0, 0⟩, by simp [esBad], rfl, rfl⟩
  · refine (C4_zero_diagonal_load_validation esGood).2 ?_ 0
    norm_num [load_validate, esGood, List.find?]

/-- C5: the claim states that a diagonal-only system reaches
`x_i = y_i / A_ii` after one update per vertex. Because the update never
reads `y` (see C1), a single-vertex diagonal-only system with `y = 6`,
`A_ii = 2` and initial estimate 0 yields estimate 0 after its update, not
`6 / 2 = 3`. -/
theorem C5_diagonal_only_sweep_wrong_value :
    (jacobi_update gC5 0).map (fun p => (p.1.vdata 0).pred_x) = some 0 ∧
    (gC5.vdata 0).y / (gC5.vdata 0).Aii = 3 ∧
    (jacobi_update gC5 0).map (fun p => (p.1.vdata 0).pred_x) ≠
      some ((gC5.vdata 0).y / (gC5.vdata 0).Aii) := by
  refine ⟨?_, ?_, ?_⟩
  · simp [jacobi_update, jacobi_update_run, gC5]
  · norm_num [gC5]
  · simp [jacobi_update, jacobi_update_run, gC5]
    norm_num

/-- C6 (amended): the combine operation `operator+=` is associative and
commutative, and folding a partition of the vertex list into `1 + k`
groups, each into its own accumulator, and combining the per-group states
yields the single-pass norms plus `k · REAL_MAX` — each extra accumulator
instance contributes one extra `numeric_limits::max()` starting value, so
the totals are independent of combination order and grouping but not of
the number of groups. -/
theorem C6_combine_assoc_comm_partition :
    (∀ a b c : accumulator,
      accumulator.combine (accumulator.combine a b) c =
        accumulator.combine a (accumulator.combine b c)) ∧
    (∀ a b : accumulator, accumulator.combine a b = accumulator.combine b a) ∧
    (∀ (g₀ : List vertex_data) (gs : List (List vertex_data)),
      (accumulator.combineAll (accumulator.foldAll g₀)
          (gs.map accumulator.foldAll)).real_norm =
        (accumulator.foldAll ((g₀ :: gs).flatten)).real_norm +
          (gs.length : real_type) * REAL_MAX ∧
      (accumulator.combineAll (accumulator.foldAll g₀)
          (gs.map accumulator.foldAll)).relative_norm =
        (accumulator.foldAll ((g₀ :: gs).flatten)).relative_norm +
          (gs.length : real_type) * REAL_MAX) := by
  refine ⟨?_, ?_, ?_⟩
  · intro a b c; simp [accumulator.combine]; constructor <;> ring
  · intro a b; simp [accumulator.combine]; constructor <;> ring
  · intro g₀ gs
    constructor
    · simp only [accumulator.combineAll, foldl_combine_real, accumulator.foldAll,
        foldl_fold1_real, List.flatten_cons, List.map_append, List.sum_append,
        sum_map_flatten, List.map_map, Function.comp_def, accumulator.new,
        sum_map_const_add]
      ring
    · simp only [accumulator.combineAll, foldl_combine_relative, accumulator.foldAll,
        foldl_fold1_relative, List.flatten_cons, List.map_append, List.sum_append,
        sum_map_flatten, List.map_map, Function.comp_def, accumulator.new,
        sum_map_const_add]
      ring

/-- Counterexample for C6 as stated: splitting two zero-error vertices into
two accumulators and combining does not equal a single pass over both,
because each accumulator contributes its own `numeric_limits::max()`
starting value. -/
theorem C6_partition_counterexample :
    accumulator.combine (accumulator.foldAll [vzero]) (accumulator.foldAll [vzero]) ≠
      accumulator.foldAll [vzero, vzero] := by
  simp [accumulator.combine, accumulator.foldAll, accumulator.fold1, accumulator.new,
    vzero, accumulator.mk.injEq, REAL_MAX]
  norm_num

/-- C7: a completed update invocation on vertex `v` leaves every other
vertex's record, every out-edge list, and `v`'s own `y`, `Aii` and `real_x`
fields unchanged — only `v`'s `pred_x` and `prev_x` are mutated. -/
theorem C7_update_frame (g : graph_type) (v : Nat) (h : (g.vdata v).Aii ≠ 0) :
    (∀ u, u ≠ v → (jacobi_update g v).map (fun p => p.1.vdata u) = some (g.vdata u)) ∧
    (∀ u, (jacobi_update g v).map (fun p => p.1.out_edges u) = some (g.out_edges u)) ∧
    (jacobi_update g v).map (fun p => (p.1.vdata v).y) = some (g.vdata v).y ∧
    (jacobi_update g v).map (fun p => (p.1.vdata v).Aii) = some (g.vdata v).Aii ∧
    (jacobi_update g v).map (fun p => (p.1.vdata v).real_x) = some (g.vdata v).real_x := by
  refine ⟨?_, ?_, ?_, ?_, ?_⟩ <;>
    simp [jacobi_update, jacobi_update_run, h]
  intro u hu
  simp [hu]

/-- Witness for C7: on the concrete system `gC1`, vertex 1's record is
untouched by the update of vertex 0. -/
theorem C7_update_frame_witness :
    (gC1.vdata 0).Aii ≠ 0 ∧
    (jacobi_update gC1 0).map (fun p => p.1.vdata 1) = some (gC1.vdata 1) := by
  have h : (gC1.vdata 0).Aii ≠ 0 := by norm_num [gC1]
  exact ⟨h, (C7_update_frame gC1 0 h).1 1 (by norm_num)⟩

/-- C8: a completed update invocation on vertex `v` stores the
pre-invocation estimate in `prev_x` and re-schedules exactly `v` with the
`jacobi_update` functor as its pending work item. -/
theorem C8_prev_estimate_and_reschedule (g : graph_type) (v : Nat)
    (h : (g.vdata v).Aii ≠ 0) :
    (jacobi_update g v).map (fun p => (p.1.vdata v).prev_x) =
      some ((g.vdata v).pred_x) ∧
    (jacobi_update g v).map (fun p => p.2) = some [(v, work_item.jacobi)] := by
  simp [jacobi_update, jacobi_update_run, h]

/-- Witness for C8: on the concrete system `gC1`, updating vertex 0
re-schedules exactly vertex 0 with the `jacobi_update` functor. -/
theorem C8_prev_estimate_and_reschedule_witness :
    (gC1.vdata 0).Aii ≠ 0 ∧
    (jacobi_update gC1 0).map (fun p => p.2) = some [(0, work_item.jacobi)] := by
  have h : (gC1.vdata 0).Aii ≠ 0 := by norm_num [gC1]
  exact ⟨h, (C8_prev_estimate_and_reschedule gC1 0 h).2⟩

/-- C9: the debug flag influences only the diagnostic output of an update
invocation; the resulting graph state and schedule are identical for any
two settings of the flag. -/
theorem C9_debug_flag_noninterference (d₁ d₂ : Bool) (g : graph_type) (v : Nat) :
    (jacobi_update_run d₁ g v).map (fun p => p.1) =
      (jacobi_update_run d₂ g v).map (fun p => p.1) := by
  by_cases h : (g.vdata v).Aii = 0 <;> simp [jacobi_update_run, h]

/-- C10: a default-constructed vertex has `y = 0`, `Aii = 1`, `pred_x = 0`,
`real_x = 0` and `prev_x = REAL_MAX` (the `numeric_limits::max()`
sentinel); in particular its diagonal is nonzero, so an update on a vertex
whose diagonal was never loaded always completes. -/
theorem C10_default_vertex :
    (vertex_data.default.y = 0 ∧ vertex_data.default.Aii = 1 ∧
     vertex_data.default.pred_x = 0 ∧ vertex_data.default.real_x = 0 ∧
     vertex_data.default.prev_x = REAL_MAX) ∧
    ∀ (g : graph_type) (v : Nat), g.vdata v = vertex_data.default →
      (jacobi_update g v).isSome = true := by
  refine ⟨⟨rfl, rfl, rfl, rfl, rfl⟩, ?_⟩
  intro g v h
  simp [jacobi_update, jacobi_update_run, h, vertex_data.default]

/-- Witness for C10: the all-default graph satisfies the hypothesis at
vertex 0, and the update on it completes. -/
theorem C10_default_vertex_witness :
    g_default.vdata 0 = vertex_data.default ∧
    (jacobi_update g_default 0).isSome = true :=
  ⟨rfl, C10_default_vertex.2 g_default 0 rfl⟩

end Jacobi
